import Mathlib

/-!
Verification development for the pdf_upload_vector_search repository.

The Python sources are shallowly embedded: texts are lists of characters,
scores are rationals, the relational store and the blob store are explicit
state, and fallible external collaborators (Qdrant connection, embedding
model, PDF byte extraction, the langchain text splitter) are passed in as
oracles / parameters.
-/

namespace PdfVectorSearch

/-! ### Text primitives shared by the embedding

Python string operations used by the sources: `.lower()`, `.split()`,
substring membership (`in`), and the `str.find` occurrence loop. -/

/-- Python `s.lower()` on a text. -/
def lowerL (s : List Char) : List Char := s.map Char.toLower

/-- Helper for `splitWords`: accumulates the current word (reversed). -/
def splitWordsAux : List Char → List Char → List (List Char)
  | [], acc => if acc = [] then [] else [acc.reverse]
  | c :: rest, acc =>
    if c.isWhitespace then
      if acc = [] then splitWordsAux rest [] else acc.reverse :: splitWordsAux rest []
    else splitWordsAux rest (c :: acc)

/-- Python `s.split()`: split on whitespace runs, dropping empty pieces. -/
def splitWords (s : List Char) : List (List Char) := splitWordsAux s []

/-- Python `w in t` on strings: `w` occurs as a contiguous substring of `t`
(equivalently, `t.find(w) != -1`). -/
def containsSub (w t : List Char) : Bool :=
  (List.range (t.length + 1)).any (fun p => w.isPrefixOf (t.drop p))

/-- The list of all start positions of `w` in `t`, in increasing order:
the denotation of the `while True: pos = text_lower.find(word, start)` loop in
`HybridSearchEngine._calculate_proximity_bonus` (overlapping occurrences
included, since the loop restarts at `pos + 1`). -/
def occurrences (w t : List Char) : List Nat :=
  (List.range (t.length + 1)).filter (fun p => w.isPrefixOf (t.drop p))

/-! ### Hybrid search engine (src/backend/utils/hybrid_search.py) -/

/-- `HybridSearchEngine.__init__` weights (defaults 0.7 / 0.3). -/
structure HybridSearchEngine where
  semantic_weight : ℚ := 7/10
  keyword_weight : ℚ := 3/10
deriving DecidableEq

/-- The module-level instance `hybrid_search_engine = HybridSearchEngine()`. -/
def hybrid_search_engine : HybridSearchEngine := {}

/-- `self.proximity_distance = 50`, set unconditionally in `__init__`. -/
def proximity_distance : Nat := 50

/-- Some position of `ps` and some position of `qs` satisfy
`abs(pos1 - pos2) <= d`. -/
def closePair (d : Nat) (ps qs : List Nat) : Bool :=
  ps.any (fun p1 => qs.any (fun p2 => decide (((p1 : Int) - (p2 : Int)).natAbs ≤ d)))

/-- The `words_found` list of `_calculate_proximity_bonus`: one
`(word, positions)` entry per query word whose position list is non-empty. -/
def wordsFound (query_words : List (List Char)) (text_lower : List Char) :
    List (List Char × List Nat) :=
  (query_words.map (fun w => (w, occurrences w text_lower))).filter
    (fun wp => !wp.2.isEmpty)

/-- The flag-controlled nested loop of `_calculate_proximity_bonus`: true iff
some pair of entries at distinct list indices has close positions. -/
def anyClosePairIdx (d : Nat) (ws : List (List Char × List Nat)) : Bool :=
  ws.enum.any (fun x => ws.enum.any (fun y =>
    decide (x.1 ≠ y.1) && closePair d x.2.2 y.2.2))

/-- `HybridSearchEngine._calculate_proximity_bonus`. -/
def calculate_proximity_bonus (query_words : List (List Char))
    (text_lower : List Char) : ℚ :=
  let words_found := wordsFound query_words text_lower
  if 2 ≤ words_found.length then
    if anyClosePairIdx proximity_distance words_found then 3/10 else 0
  else 0

/-- `HybridSearchEngine.calculate_keyword_score`. -/
def calculate_keyword_score (query_text document_text : List Char) : ℚ :=
  let query_words := splitWords (lowerL query_text)
  let query_lower := lowerL query_text
  let text_lower := lowerL document_text
  if query_words = [] then 0
  else
    let matched_words := (query_words.filter (fun w => containsSub w text_lower)).length
    let keyword_score : ℚ := matched_words
    let keyword_score :=
      if 1 < query_words.length then
        if containsSub query_lower text_lower then keyword_score + 1/2
        else if 2 ≤ matched_words then
          keyword_score + calculate_proximity_bonus query_words text_lower
        else keyword_score
      else keyword_score
    keyword_score / query_words.length

/-- `HybridSearchEngine.calculate_hybrid_score`. -/
def calculate_hybrid_score (e : HybridSearchEngine) (semantic_score keyword_score : ℚ)
    (matched_words total_words : Nat) : ℚ :=
  if matched_words = total_words then
    (6/10) * semantic_score + (4/10) * keyword_score
  else
    e.semantic_weight * semantic_score + e.keyword_weight * keyword_score

/-- One semantic / hybrid result dict. `id` abstracts the vector-store point
id and any further payload carried through `{**result, ...}`; the
`semantic_score` / `keyword_score` keys are absent (`none`) until re-ranking
adds them. -/
structure SearchResult where
  id : Nat
  text : List Char
  score : ℚ
  semantic_score : Option ℚ := none
  keyword_score : Option ℚ := none
deriving DecidableEq

/-- The loop body of `HybridSearchEngine.rerank_results`: re-score every
semantic result with its hybrid score and record both component scores. -/
def rerank_scored (e : HybridSearchEngine) (query_text : List Char)
    (semantic_results : List SearchResult) : List SearchResult :=
  let query_words := splitWords (lowerL query_text)
  let total_words := query_words.length
  semantic_results.map (fun result =>
    let document_text := result.text
    let semantic_score := result.score
    let keyword_score := calculate_keyword_score query_text document_text
    let matched_words :=
      (query_words.filter (fun w => containsSub w (lowerL document_text))).length
    let hybrid_score :=
      calculate_hybrid_score e semantic_score keyword_score matched_words total_words
    { result with
        score := hybrid_score
        semantic_score := some semantic_score
        keyword_score := some keyword_score })

/-- `HybridSearchEngine.rerank_results`: empty queries are returned
unchanged, otherwise the re-scored list is stably sorted by descending
hybrid score (`list.sort(key=..., reverse=True)` is a stable sort). -/
def rerank_results (e : HybridSearchEngine) (query_text : List Char)
    (semantic_results : List SearchResult) : List SearchResult :=
  if splitWords (lowerL query_text) = [] then semantic_results
  else
    (rerank_scored e query_text semantic_results).mergeSort
      (fun a b => decide (b.score ≤ a.score))

/-- The `try`/`except` skeleton of `HybridSearchEngine.search`, with the
fallible parts explicit: `f` is `semantic_search_func` and `rerank` is the
re-ranking stage (which raises by returning `Except.error`). On any error in
the body, the code falls back to `semantic_search_func(query, limit, filter)`. -/
def hybridSearchWith {φ : Type} (rerank : List Char → List SearchResult → Except String (List SearchResult))
    (query_text : List Char)
    (semantic_search_func : List Char → Nat → Option φ → Except String (List SearchResult))
    (limit : Nat) (filter_dict : Option φ) : Except String (List SearchResult) :=
  let body : Except String (List SearchResult) := do
    let semantic_results ← semantic_search_func query_text (max (limit * 4) 20) filter_dict
    if semantic_results = [] then
      pure []
    else do
      let hybrid_results ← rerank query_text semantic_results
      pure (hybrid_results.take limit)
  match body with
  | .ok r => .ok r
  | .error _ => semantic_search_func query_text limit filter_dict

/-- `HybridSearchEngine.search`, whose re-ranking stage is the (pure, hence
never-raising) `rerank_results`. -/
def HybridSearchEngine.search {φ : Type} (e : HybridSearchEngine) (query_text : List Char)
    (semantic_search_func : List Char → Nat → Option φ → Except String (List SearchResult))
    (limit : Nat) (filter_dict : Option φ) : Except String (List SearchResult) :=
  hybridSearchWith (fun q rs => .ok (rerank_results e q rs))
    query_text semantic_search_func limit filter_dict

/-! ### PDF processor (src/backend/utils/pdf_processor.py)

`PyPDF2` page extraction and the langchain `RecursiveCharacterTextSplitter`
are external collaborators; they enter as the per-page text list and as a
splitter oracle. Everything else is the source's own logic. -/

/-- Helper for `collapseWs`: the flag records whether the previous character
was whitespace (i.e. we are inside a run already replaced by one space). -/
def collapseWsAux : List Char → Bool → List Char
  | [], _ => []
  | c :: rest, inWs =>
    if c.isWhitespace then
      if inWs then collapseWsAux rest true else ' ' :: collapseWsAux rest true
    else c :: collapseWsAux rest false

/-- Python re.sub of one-or-more whitespace with a single space. -/
def collapseWs (l : List Char) : List Char := collapseWsAux l false

/-- Python `text.replace("- ", "")` (left-to-right, non-overlapping). -/
def removeHyphenSpace : List Char → List Char
  | '-' :: ' ' :: rest => removeHyphenSpace rest
  | c :: rest => c :: removeHyphenSpace rest
  | [] => []

/-- Python re.sub inserting a space between a lowercase letter immediately
followed by an uppercase letter. -/
def camelSpace : List Char → List Char
  | c1 :: c2 :: rest =>
    if c1.isLower ∧ c2.isUpper then c1 :: ' ' :: camelSpace (c2 :: rest)
    else c1 :: camelSpace (c2 :: rest)
  | l => l

/-- Python `s.strip()`. -/
def stripWs (l : List Char) : List Char :=
  ((l.dropWhile Char.isWhitespace).reverse.dropWhile Char.isWhitespace).reverse

/-- `PDFProcessor.clean_text`. -/
def clean_text (text : List Char) : List Char :=
  stripWs (camelSpace (removeHyphenSpace (collapseWs text)))

/-- The page separator written before each non-empty page's text. -/
def pageMarker (n : Nat) : List Char :=
  ("\n--- Page " ++ toString n ++ " ---\n").toList

/-- `PDFProcessor.extract_text_from_pdf`, over the per-page texts that
`PyPDF2` produced: concatenates non-empty pages behind their markers and
raises when the result strips to nothing. -/
def extract_text_from_pdf (pageTexts : List (List Char)) : Except String (List Char) :=
  let text := pageTexts.enum.foldl
    (fun acc pg => if pg.2 ≠ [] then acc ++ pageMarker (pg.1 + 1) ++ pg.2 else acc) []
  if stripWs text = [] then .error "No text could be extracted from the PDF"
  else .ok (stripWs text)

/-- `PDFProcessor.chunk_text`: clean, then split via the external
`RecursiveCharacterTextSplitter` (the `splitter` oracle). -/
def chunk_text (splitter : List Char → List (List Char)) (text : List Char) :
    List (List Char) :=
  splitter (clean_text text)

/-- `PDFProcessor.process_pdf_to_chunks`. -/
def process_pdf_to_chunks (splitter : List Char → List (List Char))
    (pageTexts : List (List Char)) : Except String (List (List Char)) :=
  (extract_text_from_pdf pageTexts).map (fun text => chunk_text splitter text)

/-! ### Data model and ingestion routes (src/backend/models.py,
src/backend/routers/document.py)

The relational store, the blob directory and the vector collection are
explicit state. External outcomes — Qdrant connection / collection / model
loading (`initialize_qdrant`) and the embed-and-upsert call inside
`QdrantVectorClient.insert_documents` — are boolean oracles, matching the
`-> bool` contracts of those functions. -/

/-- One row of the `documents` table. -/
structure DocRecord where
  id : Nat
  filename : String
  original_filename : List Char
  vectorization_status : String
  vectorization_error : Option String
  chunks_count : Nat
deriving DecidableEq

/-- One element of the `documents_for_qdrant` list built by the routes. -/
structure QdrantDoc where
  text : List Char
  document_id : Nat
  user_id : Option Nat
  filename : List Char
  chunk_index : Nat
deriving DecidableEq

/-- One row of the (never written) `document_chunks` table:
`(document_id, chunk_index)`. -/
abbrev ChunkRow := Nat × Nat

/-- The persistent state the routes act on: saved blobs, the `documents`
table, the `document_chunks` table and the vector-store payloads. -/
structure IngestState where
  blobs : List String
  docs : List DocRecord
  chunkRows : List ChunkRow
  qdrantPoints : List QdrantDoc
deriving DecidableEq

/-- What an ingestion route hands back: a created-document response or a
raised `HTTPException`. -/
inductive UploadOutcome where
  | created (d : DocRecord)
  | httpError (code : Nat) (detail : String)
deriving DecidableEq

/-- The `documents_for_qdrant` loop: one entry per chunk, `chunk_index`
coming from `enumerate`. -/
def documents_for_qdrant (chunks : List (List Char)) (docId : Nat)
    (fname : List Char) : List QdrantDoc :=
  chunks.enum.map (fun ic =>
    { text := ic.2, document_id := docId, user_id := none,
      filename := fname, chunk_index := ic.1 })

/-- The cleanup-and-re-raise block of `upload_pdf`'s vectorization handler:
delete the stored file, delete the document row, raise HTTP 500. -/
def rollbackCleanup (st : IngestState) (path : String) (docId : Nat)
    (msg : String) : IngestState × UploadOutcome :=
  ({ st with blobs := st.blobs.filter (fun b => b ≠ path),
             docs := st.docs.filter (fun d => d.id ≠ docId) },
   .httpError 500 ("PDF processing failed: " ++ msg))

/-- `upload_pdf` (routers/document.py): save the blob, create the pending
document row, then run the vectorization block; on success mark the row
completed, on any vectorization error delete blob and row and raise. -/
def upload_pdf (st : IngestState) (newDocId : Nat) (new_filename : String)
    (original_filename : List Char) (pageTexts : List (List Char))
    (splitter : List Char → List (List Char)) (initOk insertOk : Bool) :
    IngestState × UploadOutcome :=
  let st1 := { st with blobs := st.blobs ++ [new_filename] }
  let doc0 : DocRecord :=
    { id := newDocId, filename := new_filename,
      original_filename := original_filename,
      vectorization_status := "pending", vectorization_error := none,
      chunks_count := 0 }
  let st2 := { st1 with docs := st1.docs ++ [doc0] }
  let vecResult : Except String (List (List Char)) :=
    if !initOk then .error "Failed to initialize Qdrant"
    else process_pdf_to_chunks splitter pageTexts
  match vecResult with
  | .ok chunks =>
    if insertOk then
      let dq := documents_for_qdrant chunks newDocId original_filename
      let doc1 := { doc0 with vectorization_status := "completed",
                              chunks_count := chunks.length }
      ({ st2 with
           qdrantPoints := st2.qdrantPoints ++ dq,
           docs := st2.docs.map (fun d => if d.id = newDocId then doc1 else d) },
       .created doc1)
    else rollbackCleanup st2 new_filename newDocId
      "Failed to insert documents into Qdrant"
  | .error e => rollbackCleanup st2 new_filename newDocId e

/-- `create_pdf_document_without_vectorization` (routers/document.py):
save the blob and create the row directly in `failed` state with the given
reason; no error is raised. -/
def create_pdf_document_without_vectorization (st : IngestState) (newDocId : Nat)
    (new_filename : String) (original_filename : List Char)
    (error_reason : String) : IngestState × UploadOutcome :=
  let doc : DocRecord :=
    { id := newDocId, filename := new_filename,
      original_filename := original_filename,
      vectorization_status := "failed",
      vectorization_error := some error_reason, chunks_count := 0 }
  ({ st with blobs := st.blobs ++ [new_filename], docs := st.docs ++ [doc] },
   .created doc)

/-- `url_to_pdf` (routers/document.py), after the external browser render:
`success` and `extracted_text` come from the extractor. Substantial text
(more than 100 characters) goes through blob save, pending row and the
vectorization block — whose failure only marks the row `failed` (no
rollback, no raise). Insufficient text goes to
`create_pdf_document_without_vectorization`. -/
def url_to_pdf (st : IngestState) (newDocId : Nat) (new_filename : String)
    (generated_filename : List Char) (success : Bool)
    (extracted_text : List Char) (splitter : List Char → List (List Char))
    (initOk insertOk : Bool) : IngestState × UploadOutcome :=
  let extracted := if success then extracted_text else []
  if extracted ≠ [] ∧ 100 < extracted.length then
    let st1 := { st with blobs := st.blobs ++ [new_filename] }
    let doc0 : DocRecord :=
      { id := newDocId, filename := new_filename,
        original_filename := generated_filename,
        vectorization_status := "pending", vectorization_error := none,
        chunks_count := 0 }
    let st2 := { st1 with docs := st1.docs ++ [doc0] }
    let vecResult : Except String (List (List Char)) :=
      if !initOk then .error "Failed to initialize Qdrant"
      else
        let chunks := splitter extracted
        if insertOk then .ok chunks
        else .error "Failed to insert documents into Qdrant"
    match vecResult with
    | .ok chunks =>
      let dq := documents_for_qdrant chunks newDocId generated_filename
      let doc1 := { doc0 with vectorization_status := "completed",
                              chunks_count := chunks.length }
      ({ st2 with
           qdrantPoints := st2.qdrantPoints ++ dq,
           docs := st2.docs.map (fun d => if d.id = newDocId then doc1 else d) },
       .created doc1)
    | .error e =>
      let doc1 := { doc0 with vectorization_status := "failed",
                              vectorization_error := some e }
      ({ st2 with
           docs := st2.docs.map (fun d => if d.id = newDocId then doc1 else d) },
       .created doc1)
  else
    create_pdf_document_without_vectorization st newDocId new_filename
      generated_filename
      "No substantial text content could be extracted from the webpage"

/-! ### Search route (routers/document.py `search_documents`,
utils/qdrant_client.py `QdrantVectorClient.search`) -/

/-- One hit as formatted by `QdrantVectorClient.search` (point id abstracted
to a number, payload fields flattened). -/
structure SearchHit where
  id : Nat
  score : ℚ
  text : List Char
  document_id : Option Nat
  chunk_index : Nat
deriving DecidableEq

/-- `QdrantVectorClient.search`: the whole body is wrapped in
`try ... except: return []` — the `backend` oracle is the outcome of the
embedding computation plus the Qdrant query, and every failure is swallowed
into an empty result list. -/
def qdrant_search (backend : Except String (List SearchHit)) : List SearchHit :=
  match backend with
  | .ok r => r
  | .error _ => []

/-- One formatted entry of the route's response. -/
structure FormattedResult where
  document_id : Nat
  filename : List Char
  chunk_index : Nat
  text : List Char
  confidence : ℚ
deriving DecidableEq

/-- The response of `search_documents`: a JSON body (with its optional
"No results found" message) or a raised `HTTPException`. -/
inductive SearchOutcome where
  | results (res : List FormattedResult) (message : Option String)
  | httpError (code : Nat) (detail : String)
deriving DecidableEq

/-- The per-result formatting loop of `search_documents`: skip hits below a
truthy `min_confidence`, look the owning document up, keep only hits whose
truthy `document_id` resolves. -/
def formatHits (db : List DocRecord) (min_confidence : Option ℚ)
    (hits : List SearchHit) : List FormattedResult :=
  hits.filterMap (fun r =>
    if (match min_confidence with
        | some m => decide (m ≠ 0) && decide (r.score < m)
        | none => false) then none
    else
      match r.document_id with
      | some did =>
        if did ≠ 0 then
          match db.find? (fun d => d.id = did) with
          | some doc => some
              { document_id := did, filename := doc.original_filename,
                chunk_index := r.chunk_index, text := r.text,
                confidence := r.score }
          | none => none
        else none
      | none => none)

/-- `search_documents` (routers/document.py): `initOk` is the outcome of the
`initialize_qdrant()` pre-check. -/
def search_documents (initOk : Bool) (backend : Except String (List SearchHit))
    (db : List DocRecord) (min_confidence : Option ℚ) : SearchOutcome :=
  if !initOk then .httpError 500 "Vector search service unavailable"
  else
    let search_results := qdrant_search backend
    if search_results = [] then .results [] (some "No results found")
    else .results (formatHits db min_confidence search_results) none

/-! ### Helper lemmas -/

/-- The proximity bonus is either absent or exactly 0.3. -/
theorem prox_bonus_cases (qws : List (List Char)) (tl : List Char) :
    calculate_proximity_bonus qws tl = 0 ∨ calculate_proximity_bonus qws tl = 3/10 := by
  simp only [calculate_proximity_bonus]
  split
  · split
    · exact Or.inr rfl
    · exact Or.inl rfl
  · exact Or.inl rfl

/-- For a non-empty query, the keyword score is the matched-token count plus
one bonus of at most 0.5, divided by the query word count. -/
theorem keyword_score_rep (q t : List Char) (h : splitWords (lowerL q) ≠ []) :
    ∃ b : ℚ, 0 ≤ b ∧ b ≤ 1/2 ∧
      calculate_keyword_score q t =
        ((((splitWords (lowerL q)).filter
            (fun w => containsSub w (lowerL t))).length : ℚ) + b) /
          ((splitWords (lowerL q)).length : ℚ) := by
  simp only [calculate_keyword_score, if_neg h]
  by_cases h1 : 1 < (splitWords (lowerL q)).length
  · by_cases h2 : containsSub (lowerL q) (lowerL t) = true
    · exact ⟨1/2, by norm_num, le_refl _, by rw [if_pos h1, if_pos h2]⟩
    · by_cases h3 : 2 ≤ ((splitWords (lowerL q)).filter
          (fun w => containsSub w (lowerL t))).length
      · refine ⟨calculate_proximity_bonus (splitWords (lowerL q)) (lowerL t), ?_, ?_, ?_⟩
        · rcases prox_bonus_cases (splitWords (lowerL q)) (lowerL t) with hp | hp <;>
            rw [hp] <;> norm_num
        · rcases prox_bonus_cases (splitWords (lowerL q)) (lowerL t) with hp | hp <;>
            rw [hp] <;> norm_num
        · rw [if_pos h1, if_neg h2, if_pos h3]
      · exact ⟨0, le_refl _, by norm_num,
          by rw [if_pos h1, if_neg h2, if_neg h3, add_zero]⟩
  · exact ⟨0, le_refl _, by norm_num, by rw [if_neg h1, add_zero]⟩

/-! ### Claims -/

/-- C5: the hybrid score is `0.6*semantic + 0.4*keyword` when the
matched-word count equals the total query word count, and
`semanticWeight*semantic + keywordWeight*keyword` otherwise, with the
module-level engine carrying the default weights 0.7 and 0.3; for
semantic 0.5 and keyword 1.0 under a full match, the hybrid score is
exactly 0.70. -/
theorem C5_hybrid_full_match_weighting (e : HybridSearchEngine) (s k : ℚ)
    (m t : Nat) :
    (m = t → calculate_hybrid_score e s k m t = 6/10 * s + 4/10 * k) ∧
    (m ≠ t → calculate_hybrid_score e s k m t =
      e.semantic_weight * s + e.keyword_weight * k) ∧
    hybrid_search_engine.semantic_weight = 7/10 ∧
    hybrid_search_engine.keyword_weight = 3/10 ∧
    calculate_hybrid_score e (1/2) 1 2 2 = 7/10 := by
  refine ⟨fun h => by rw [calculate_hybrid_score, if_pos h],
          fun h => by rw [calculate_hybrid_score, if_neg h], rfl, rfl, ?_⟩
  rw [calculate_hybrid_score, if_pos rfl]
  norm_num

/-- Witness for C5 at concrete inputs: full match gives exactly 0.70 and a
partial match uses the 0.7 / 0.3 default weights. -/
theorem C5_hybrid_full_match_weighting_witness :
    calculate_hybrid_score hybrid_search_engine (1/2) 1 2 2 = 7/10 ∧
    calculate_hybrid_score hybrid_search_engine (1/2) 1 1 2 =
      hybrid_search_engine.semantic_weight * (1/2) +
        hybrid_search_engine.keyword_weight * 1 :=
  ⟨(C5_hybrid_full_match_weighting hybrid_search_engine (1/2) 1 2 2).2.2.2.2,
   (C5_hybrid_full_match_weighting hybrid_search_engine (1/2) 1 1 2).2.1
     (by decide)⟩

/-- C9: the keyword score is the accumulated match score (one point per
query word found plus at most one bonus of at most 0.5) divided by the
number of query words, is 0 for an empty query, and always lies in
`[0, 1.5]`. -/
theorem C9_keyword_normalization (q t : List Char) :
    (splitWords (lowerL q) = [] → calculate_keyword_score q t = 0) ∧
    (splitWords (lowerL q) ≠ [] →
      ∃ b : ℚ, 0 ≤ b ∧ b ≤ 1/2 ∧
        calculate_keyword_score q t =
          ((((splitWords (lowerL q)).filter
              (fun w => containsSub w (lowerL t))).length : ℚ) + b) /
            ((splitWords (lowerL q)).length : ℚ)) ∧
    0 ≤ calculate_keyword_score q t ∧ calculate_keyword_score q t ≤ 3/2 := by
  refine ⟨fun h => by simp [calculate_keyword_score, h],
          fun h => keyword_score_rep q t h, ?_⟩
  by_cases h : splitWords (lowerL q) = []
  · constructor <;> simp [calculate_keyword_score, h] <;> norm_num
  · obtain ⟨b, hb0, hb2, heq⟩ := keyword_score_rep q t h
    rw [heq]
    have hlen : 0 < (splitWords (lowerL q)).length := List.length_pos.mpr h
    have hn : (1 : ℚ) ≤ ((splitWords (lowerL q)).length : ℚ) := by exact_mod_cast hlen
    have hm : ((((splitWords (lowerL q)).filter
        (fun w => containsSub w (lowerL t))).length : ℚ)) ≤
        ((splitWords (lowerL q)).length : ℚ) := by
      exact_mod_cast List.length_filter_le _ _
    constructor
    · apply div_nonneg (by positivity) (by linarith)
    · rw [div_le_iff₀ (by linarith)]
      linarith

/-- Witness for C9 at a concrete input, discharging the non-empty-query
hypothesis of the representation conjunct. -/
theorem C9_keyword_normalization_witness :
    ∃ b : ℚ, 0 ≤ b ∧ b ≤ 1/2 ∧
      calculate_keyword_score "alpha beta".toList "alpha".toList =
        ((((splitWords (lowerL "alpha beta".toList)).filter
            (fun w => containsSub w (lowerL "alpha".toList))).length : ℚ) + b) /
          ((splitWords (lowerL "alpha beta".toList)).length : ℚ) :=
  (C9_keyword_normalization "alpha beta".toList "alpha".toList).2.1 (by decide)

/-- Filtering by "not this element" removes nothing from a list the element
does not belong to. -/
theorem filter_ne_of_not_mem {α : Type} [DecidableEq α] (l : List α) (a : α)
    (h : a ∉ l) : l.filter (fun b => b ≠ a) = l := by
  apply List.filter_eq_self.mpr
  intro b hb
  simp only [decide_eq_true_eq]
  exact fun he => h (he ▸ hb)

/-- Filtering document rows by "different id" removes nothing when no row
carries that id. -/
theorem filter_docs_ne_of_fresh (l : List DocRecord) (i : Nat)
    (h : ∀ d ∈ l, d.id ≠ i) : l.filter (fun d => d.id ≠ i) = l := by
  apply List.filter_eq_self.mpr
  intro d hd
  simp only [decide_eq_true_eq]
  exact h d hd

/-- Updating document rows by id changes nothing when no row carries the id. -/
theorem map_update_of_fresh (l : List DocRecord) (i : Nat) (d1 : DocRecord)
    (h : ∀ d ∈ l, d.id ≠ i) :
    l.map (fun d => if d.id = i then d1 else d) = l := by
  induction l with
  | nil => rfl
  | cons x xs ih =>
    have hx : x.id ≠ i := h x (List.mem_cons_self x xs)
    have hxs : ∀ d ∈ xs, d.id ≠ i := fun d hd => h d (List.mem_cons_of_mem x hd)
    simp [hx, ih hxs]

/-- A fixed page splitter used in concrete runs: one chunk per document. -/
def splitOne : List Char → List (List Char) := fun t => [t]

/-- A fixed page splitter used in concrete runs: two chunks per document. -/
def splitTwo : List Char → List (List Char) := fun t => [t, t]

/-- A splitter producing no chunks, used to instantiate witnesses. -/
def splitNone : List Char → List (List Char) := fun _ => []

/-- The Document record left behind by the C1 counterexample run. -/
def c1FailedDoc : DocRecord :=
  { id := 1, filename := "w.pdf", original_filename := "w".toList,
    vectorization_status := "failed",
    vectorization_error := some "Failed to insert documents into Qdrant",
    chunks_count := 0 }

/-- C1 counterexample: in `url_to_pdf`, when the Qdrant upsert stage fails,
the Document row persists (in `failed` state), the blob persists, and no
failure is surfaced — the route answers with a created-document response. -/
theorem C1_counterexample :
    (let r := url_to_pdf ⟨[], [], [], []⟩ 1 "w.pdf" "w".toList true
        (List.replicate 101 'a') splitOne true false
     r.1.docs = [c1FailedDoc] ∧ r.1.blobs = ["w.pdf"] ∧
       r.2 = .created c1FailedDoc) := by
  decide

/-- C1 (amended): for `upload_pdf`, when the Qdrant upsert stage fails
(initialization and extraction succeeded), the route deletes the blob and
the Document row again — the state after the call is exactly the state
before it, no Fragment row or vector point was added, and an HTTP 500
failure is surfaced. -/
theorem C1_upload_rollback_on_upsert_failure (st : IngestState) (docId : Nat)
    (path : String) (orig : List Char) (pageTexts : List (List Char))
    (splitter : List Char → List (List Char)) (chunks : List (List Char))
    (hdoc : ∀ d ∈ st.docs, d.id ≠ docId) (hblob : path ∉ st.blobs)
    (hext : process_pdf_to_chunks splitter pageTexts = .ok chunks) :
    upload_pdf st docId path orig pageTexts splitter true false =
      (st, .httpError 500
        "PDF processing failed: Failed to insert documents into Qdrant") := by
  cases st with
  | mk blobs docs chunkRows qdrantPoints =>
    simp only [upload_pdf, rollbackCleanup, Bool.not_true, Bool.false_eq_true,
      if_false, hext]
    simp only [List.filter_append, filter_ne_of_not_mem _ _ hblob,
      filter_docs_ne_of_fresh _ _ hdoc]
    simp

/-- Witness for C1's rollback theorem at a concrete run. -/
theorem C1_upload_rollback_on_upsert_failure_witness :
    upload_pdf ⟨[], [], [], []⟩ 1 "a.pdf" "a".toList [['x']] splitNone true false =
      (⟨[], [], [], []⟩, .httpError 500
        "PDF processing failed: Failed to insert documents into Qdrant") :=
  C1_upload_rollback_on_upsert_failure ⟨[], [], [], []⟩ 1 "a.pdf" "a".toList
    [['x']] splitNone [] (by decide) (by decide) (by rfl)

/-- C2 counterexample: in `upload_pdf`, extraction yielding no text raises
inside the vectorization block, so the Document is rolled back (none
persists) and a request-level HTTP 500 error is surfaced — the opposite of
the claimed persisted `failed` record with no error. -/
theorem C2_counterexample :
    upload_pdf ⟨[], [], [], []⟩ 1 "e.pdf" "e".toList [[]] splitOne true true =
      (⟨[], [], [], []⟩, .httpError 500
        "PDF processing failed: No text could be extracted from the PDF") := by
  decide

/-- The `failed` Document row created for insufficient url extraction. -/
def urlFailedDoc (docId : Nat) (path : String) (orig : List Char) : DocRecord :=
  { id := docId, filename := path, original_filename := orig,
    vectorization_status := "failed",
    vectorization_error := some
      "No substantial text content could be extracted from the webpage",
    chunks_count := 0 }

/-- C2 (amended): for `url_to_pdf`, extraction yielding empty or
insufficient text (at most 100 characters) creates the Document directly in
`failed` state with the human-readable reason, and no request-level error is
raised. -/
theorem C2_url_insufficient_text_soft_fail (st : IngestState) (docId : Nat)
    (path : String) (orig : List Char) (success : Bool) (text : List Char)
    (splitter : List Char → List (List Char)) (initOk insertOk : Bool)
    (h : (if success then text else []).length ≤ 100) :
    url_to_pdf st docId path orig success text splitter initOk insertOk =
      ({ st with blobs := st.blobs ++ [path],
                 docs := st.docs ++ [urlFailedDoc docId path orig] },
       .created (urlFailedDoc docId path orig)) := by
  rw [url_to_pdf, if_neg]
  · rfl
  · rintro ⟨-, hlt⟩
    omega

/-- Witness for C2's soft-failure theorem at a concrete run. -/
theorem C2_url_insufficient_text_soft_fail_witness :
    url_to_pdf ⟨[], [], [], []⟩ 2 "s.pdf" "s".toList true "short".toList
        splitOne true true =
      (⟨["s.pdf"], [urlFailedDoc 2 "s.pdf" "s".toList], [], []⟩,
       .created (urlFailedDoc 2 "s.pdf" "s".toList)) :=
  C2_url_insufficient_text_soft_fail ⟨[], [], [], []⟩ 2 "s.pdf" "s".toList
    true "short".toList splitOne true true (by decide)

/-- The `completed` Document row produced by a successful upload. -/
def completedDoc (docId : Nat) (path : String) (orig : List Char)
    (n : Nat) : DocRecord :=
  { id := docId, filename := path, original_filename := orig,
    vectorization_status := "completed", vectorization_error := none,
    chunks_count := n }

/-- C3 counterexample: a successful `upload_pdf` ingestion with two chunks
marks the Document `completed` with `chunks_count = 2`, yet persists no
DocumentChunk (Fragment) row at all — the relational `document_chunks`
table is never written. -/
theorem C3_counterexample :
    (let r := upload_pdf ⟨[], [], [], []⟩ 1 "c.pdf" "c".toList [['h', 'i']]
        splitTwo true true
     r.2 = .created (completedDoc 1 "c.pdf" "c".toList 2) ∧
       r.1.chunkRows = []) := by
  decide

/-- C3 (amended): on a successful ingestion `upload_pdf` updates the
Document to `completed` with `chunks_count` equal to the number of chunks,
and the vector-store batch carries ordinals exactly `0..chunks_count-1`
(via `enumerate`); but no DocumentChunk row is persisted in the relational
store — the `document_chunks` table is left untouched. -/
theorem C3_upload_success_no_fragment_rows (st : IngestState) (docId : Nat)
    (path : String) (orig : List Char) (pageTexts : List (List Char))
    (splitter : List Char → List (List Char)) (chunks : List (List Char))
    (hdoc : ∀ d ∈ st.docs, d.id ≠ docId)
    (hext : process_pdf_to_chunks splitter pageTexts = .ok chunks) :
    upload_pdf st docId path orig pageTexts splitter true true =
      ({ st with blobs := st.blobs ++ [path],
                 docs := st.docs ++ [completedDoc docId path orig chunks.length],
                 qdrantPoints := st.qdrantPoints ++
                   documents_for_qdrant chunks docId orig },
       .created (completedDoc docId path orig chunks.length)) ∧
    (documents_for_qdrant chunks docId orig).map (fun d => d.chunk_index) =
      List.range chunks.length := by
  constructor
  · cases st with
    | mk blobs docs chunkRows qdrantPoints =>
      simp only [upload_pdf, Bool.not_true, Bool.false_eq_true, if_false,
        hext, if_pos trivial]
      simp only [List.map_append, map_update_of_fresh _ _ _ hdoc]
      simp [completedDoc]
  · rw [documents_for_qdrant, List.map_map]
    exact List.enum_map_fst chunks

/-- Witness for C3's success-path theorem at a concrete run. -/
theorem C3_upload_success_no_fragment_rows_witness :
    (upload_pdf ⟨[], [], [], []⟩ 3 "d.pdf" "d".toList [['y']] splitNone
        true true =
      (⟨["d.pdf"], [completedDoc 3 "d.pdf" "d".toList 0], [], []⟩,
       .created (completedDoc 3 "d.pdf" "d".toList 0))) ∧
    (documents_for_qdrant [] 3 "d".toList).map (fun d => d.chunk_index) =
      List.range 0 :=
  C3_upload_success_no_fragment_rows ⟨[], [], [], []⟩ 3 "d.pdf" "d".toList
    [['y']] splitNone [] (by decide) (by rfl)

/-- C4 counterexample: with initialization succeeding but the backend
failing during the search operation itself, `search_documents` answers with
an empty result set labeled "No results found" instead of a
service-unavailable error. -/
theorem C4_counterexample :
    search_documents true (.error "connection refused") [] none =
      .results [] (some "No results found") := by
  rfl

/-- C4 (amended): when the `initialize_qdrant` pre-check fails, every search
call fails fast with the distinguishable HTTP 500 "Vector search service
unavailable" condition; but a backend failure during the search operation
itself is swallowed by `QdrantVectorClient.search` (which returns an empty
list) and is presented as "No results found". -/
theorem C4_unavailable_fails_fast_only_at_init
    (backend : Except String (List SearchHit)) (db : List DocRecord)
    (mc : Option ℚ) :
    search_documents false backend db mc =
      .httpError 500 "Vector search service unavailable" ∧
    (∀ msg : String, search_documents true (.error msg) db mc =
      .results [] (some "No results found")) := by
  exact ⟨rfl, fun msg => rfl⟩

/-- For a non-empty query, re-ranking is the stable descending sort of the
re-scored list. -/
theorem rerank_results_eq_sort (e : HybridSearchEngine) (q : List Char)
    (rs : List SearchResult) (hq : splitWords (lowerL q) ≠ []) :
    rerank_results e q rs =
      (rerank_scored e q rs).mergeSort (fun a b => decide (b.score ≤ a.score)) := by
  rw [rerank_results, if_neg hq]

/-- The descending-score comparator is transitive. -/
theorem scoreLe_trans (a b c : SearchResult) :
    decide (b.score ≤ a.score) → decide (c.score ≤ b.score) →
      decide (c.score ≤ a.score) := by
  simp only [decide_eq_true_eq]
  exact fun h1 h2 => le_trans h2 h1

/-- The descending-score comparator is total. -/
theorem scoreLe_total (a b : SearchResult) :
    decide (b.score ≤ a.score) || decide (a.score ≤ b.score) := by
  simp only [Bool.or_eq_true, decide_eq_true_eq]
  exact le_total _ _

/-- Two concrete results used in concrete hybrid-search runs. -/
def resA : SearchResult := { id := 1, text := ['a'], score := 1 }

/-- A second concrete result, distinct from `resA`. -/
def resB : SearchResult := { id := 2, text := ['b'], score := 1 }

/-- A semantic search function whose over-fetch answer and whose
limit-sized answer differ. -/
def cexSemanticFn : List Char → Nat → Option Unit → Except String (List SearchResult) :=
  fun _ k _ => if k = 20 then .ok [resA] else .ok [resB]

/-- C7 counterexample: when re-ranking raises, `search` does not return the
original semantic results truncated to `limit` — it re-invokes the semantic
function with `limit`, which here answers something else entirely. -/
theorem C7_counterexample :
    hybridSearchWith (fun _ _ => .error "keyword scoring failed") ['q']
        cexSemanticFn 1 none = .ok [resB] ∧
    [resB] ≠ [resA].take 1 := by
  exact ⟨rfl, by decide⟩

/-- C7 (amended): if the semantic over-fetch succeeded with a non-empty
candidate list and the re-ranking stage raises, `search` does not propagate
the error; it falls back by re-invoking the semantic search function with
the originally requested `limit` and returns that call's outcome unmodified
(not the truncation of the already-fetched results). -/
theorem C7_fallback_reinvokes_semantic {φ : Type}
    (rerank : List Char → List SearchResult → Except String (List SearchResult))
    (q : List Char)
    (f : List Char → Nat → Option φ → Except String (List SearchResult))
    (limit : Nat) (fl : Option φ) (sem : List SearchResult) (msg : String)
    (hf : f q (max (limit * 4) 20) fl = .ok sem) (hne : sem ≠ [])
    (hr : rerank q sem = .error msg) :
    hybridSearchWith rerank q f limit fl = f q limit fl := by
  simp only [hybridSearchWith, hf, hr, bind, Except.bind, if_neg hne]

/-- Witness for C7's fallback theorem at a concrete run. -/
theorem C7_fallback_reinvokes_semantic_witness :
    hybridSearchWith (fun _ _ => .error "boom") ['q'] cexSemanticFn 1 none =
      cexSemanticFn ['q'] 1 none :=
  C7_fallback_reinvokes_semantic (fun _ _ => .error "boom") ['q']
    cexSemanticFn 1 none [resA] "boom" (by rfl) (by decide) (by rfl)

/-- C10: for a non-empty query, `rerank_results` returns a list of the same
length holding exactly the input candidates (a permutation, none added,
none dropped), each output entry preserving its original semantic score in
`semantic_score` and carrying `keyword_score` equal to
`calculate_keyword_score` of the query and its own text. -/
theorem C10_rerank_is_permutation (e : HybridSearchEngine) (q : List Char)
    (rs : List SearchResult) (hq : splitWords (lowerL q) ≠ []) :
    (rerank_results e q rs).length = rs.length ∧
    List.Perm
      ((rerank_results e q rs).map (fun r => (r.id, r.text, r.semantic_score)))
      (rs.map (fun r => (r.id, r.text, some r.score))) ∧
    ∀ r ∈ rerank_results e q rs,
      r.keyword_score = some (calculate_keyword_score q r.text) := by
  rw [rerank_results_eq_sort e q rs hq]
  refine ⟨?_, ?_, ?_⟩
  · rw [List.length_mergeSort, rerank_scored, List.length_map]
  · have hperm :=
      (List.mergeSort_perm (rerank_scored e q rs)
        (fun a b => decide (b.score ≤ a.score))).map
        (fun r => (r.id, r.text, r.semantic_score))
    refine hperm.trans ?_
    rw [rerank_scored, List.map_map]
    exact List.Perm.of_eq rfl
  · intro r hr
    rw [List.mem_mergeSort, rerank_scored, List.mem_map] at hr
    obtain ⟨s, -, rfl⟩ := hr
    rfl

/-- Witness for C10 at a concrete run. -/
theorem C10_rerank_is_permutation_witness :
    (rerank_results hybrid_search_engine ['a'] [resA, resB]).length =
      [resA, resB].length ∧
    List.Perm
      ((rerank_results hybrid_search_engine ['a'] [resA, resB]).map
        (fun r => (r.id, r.text, r.semantic_score)))
      ([resA, resB].map (fun r => (r.id, r.text, some r.score))) ∧
    ∀ r ∈ rerank_results hybrid_search_engine ['a'] [resA, resB],
      r.keyword_score = some (calculate_keyword_score ['a'] r.text) :=
  C10_rerank_is_permutation hybrid_search_engine ['a'] [resA, resB] (by decide)

/-- A result with the lowest score, listed first in the C8 counterexample. -/
def resLow : SearchResult := { id := 1, text := ['x'], score := 0 }

/-- A result with the highest score, listed last in the C8 counterexample. -/
def resHigh : SearchResult := { id := 2, text := ['y'], score := 1 }

/-- C8 counterexample: for an empty query, `rerank_results` returns the
input unchanged, so the output need not be sorted by descending score. -/
theorem C8_counterexample :
    rerank_results hybrid_search_engine [] [resLow, resHigh] =
      [resLow, resHigh] ∧
    ¬ (rerank_results hybrid_search_engine [] [resLow, resHigh]).Pairwise
        (fun a b => b.score ≤ a.score) := by
  refine ⟨rfl, ?_⟩
  rw [show rerank_results hybrid_search_engine [] [resLow, resHigh] =
    [resLow, resHigh] from rfl]
  intro hp
  have h1 := List.rel_of_pairwise_cons hp (List.mem_cons_self resHigh [])
  norm_num [resLow, resHigh] at h1

/-- C8 (amended): for every query with at least one word, the re-ranked
list is sorted in descending hybrid score, ties and already-ordered pairs
of the re-scored list keep their relative order (stability), and on the
non-empty normal path `search` returns exactly this ordering truncated to
at most `limit` results. (For an empty or whitespace query, re-ranking
returns the semantic input unchanged.) -/
theorem C8_sorted_stable_truncated {φ : Type} (e : HybridSearchEngine)
    (q : List Char) (rs : List SearchResult) (hq : splitWords (lowerL q) ≠ [])
    (f : List Char → Nat → Option φ → Except String (List SearchResult))
    (limit : Nat) (fl : Option φ) (sem : List SearchResult)
    (hsem : f q (max (limit * 4) 20) fl = .ok sem) (hne : sem ≠ []) :
    (rerank_results e q rs).Pairwise (fun a b => b.score ≤ a.score) ∧
    (∀ a b : SearchResult, List.Sublist [a, b] (rerank_scored e q rs) →
      b.score ≤ a.score → List.Sublist [a, b] (rerank_results e q rs)) ∧
    HybridSearchEngine.search e q f limit fl =
      .ok ((rerank_results e q sem).take limit) ∧
    ((rerank_results e q sem).take limit).length ≤ limit := by
  refine ⟨?_, ?_, ?_, ?_⟩
  · rw [rerank_results_eq_sort e q rs hq]
    have hs := List.sorted_mergeSort scoreLe_trans scoreLe_total
      (rerank_scored e q rs)
    exact hs.imp (fun h => by simpa using h)
  · intro a b hsub hle
    rw [rerank_results_eq_sort e q rs hq]
    exact List.pair_sublist_mergeSort scoreLe_trans scoreLe_total
      (decide_eq_true hle) hsub
  · simp only [HybridSearchEngine.search, hybridSearchWith, hsem, bind,
      Except.bind, if_neg hne, pure, Except.pure]
  · exact List.length_take_le limit _

/-- Witness for C8 at a concrete run. -/
theorem C8_sorted_stable_truncated_witness :
    (rerank_results hybrid_search_engine ['a'] [resLow]).Pairwise
      (fun a b => b.score ≤ a.score) ∧
    (∀ a b : SearchResult,
      List.Sublist [a, b] (rerank_scored hybrid_search_engine ['a'] [resLow]) →
      b.score ≤ a.score →
      List.Sublist [a, b] (rerank_results hybrid_search_engine ['a'] [resLow])) ∧
    HybridSearchEngine.search hybrid_search_engine ['a']
        (fun _ _ _ => Except.ok (ε := String) [resHigh]) 1 (none : Option Unit) =
      .ok ((rerank_results hybrid_search_engine ['a'] [resHigh]).take 1) ∧
    ((rerank_results hybrid_search_engine ['a'] [resHigh]).take 1).length ≤ 1 :=
  C8_sorted_stable_truncated hybrid_search_engine ['a'] [resLow] (by decide)
    (fun _ _ _ => Except.ok (ε := String) [resHigh]) 1 none [resHigh]
    (by rfl) (by decide)

/-- A word occurs as a substring exactly when its occurrence list is
non-empty. -/
theorem containsSub_iff_occurrences (w t : List Char) :
    containsSub w t = true ↔ occurrences w t ≠ [] := by
  rw [containsSub, occurrences, List.any_eq_true, Ne, List.filter_eq_nil_iff]
  push_neg
  exact Iff.rfl

/-- The match filter over `in`-style checks coincides with the filter over
non-empty occurrence lists. -/
theorem matched_filter_eq (qws : List (List Char)) (tl : List Char) :
    qws.filter (fun w => containsSub w tl) =
      qws.filter (fun w => !(occurrences w tl).isEmpty) := by
  apply List.filter_congr
  intro w _
  rw [Bool.eq_iff_iff, containsSub_iff_occurrences]
  simp [List.isEmpty_iff]

/-- `closePair` is the existence of two positions within distance `d`. -/
theorem closePair_iff (d : Nat) (ps qs : List Nat) :
    closePair d ps qs = true ↔
      ∃ p1 ∈ ps, ∃ p2 ∈ qs, ((p1 : Int) - (p2 : Int)).natAbs ≤ d := by
  simp [closePair, List.any_eq_true]

/-- `wordsFound` as a map over the filtered query-word list. -/
theorem wordsFound_eq (qws : List (List Char)) (tl : List Char) :
    wordsFound qws tl =
      (qws.filter (fun w => !(occurrences w tl).isEmpty)).map
        (fun w => (w, occurrences w tl)) := by
  rw [wordsFound, List.filter_map]
  rfl

/-- For a duplicate-free query, the `words_found` keys are duplicate-free. -/
theorem wordsFound_keys_nodup (qws : List (List Char)) (tl : List Char)
    (hnd : qws.Nodup) : ((wordsFound qws tl).map Prod.fst).Nodup := by
  rw [wordsFound_eq, List.map_map]
  have h : (Prod.fst ∘ fun w => (w, occurrences w tl)) = id := rfl
  rw [h, List.map_id]
  exact hnd.filter _

/-- Membership in `words_found`, unfolded to the underlying query word. -/
theorem mem_wordsFound_iff (qws : List (List Char)) (tl : List Char)
    (x : List Char × List Nat) :
    x ∈ wordsFound qws tl ↔
      ∃ w ∈ qws, occurrences w tl ≠ [] ∧ x = (w, occurrences w tl) := by
  rw [wordsFound_eq, List.mem_map]
  constructor
  · rintro ⟨w, hw, rfl⟩
    rw [List.mem_filter] at hw
    exact ⟨w, hw.1, by simpa [List.isEmpty_iff] using hw.2, rfl⟩
  · rintro ⟨w, hw, hne, rfl⟩
    exact ⟨w, List.mem_filter.mpr ⟨hw, by simpa [List.isEmpty_iff] using hne⟩, rfl⟩

/-- When the entry keys are duplicate-free, the index-based nested loop of
`_calculate_proximity_bonus` finds a qualifying pair exactly when two
entries with distinct keys have close positions. -/
theorem anyClosePairIdx_iff (d : Nat) (L : List (List Char × List Nat))
    (hnd : (L.map Prod.fst).Nodup) :
    anyClosePairIdx d L = true ↔
      ∃ x ∈ L, ∃ y ∈ L, x.1 ≠ y.1 ∧ closePair d x.2 y.2 = true := by
  rw [anyClosePairIdx]
  simp only [List.any_eq_true, Bool.and_eq_true, decide_eq_true_eq]
  rw [List.exists_mem_enum]
  constructor
  · rintro ⟨i, hi, hrest⟩
    rw [List.exists_mem_enum] at hrest
    obtain ⟨j, hj, hij, hc⟩ := hrest
    refine ⟨L[i], List.getElem_mem hi, L[j], List.getElem_mem hj, ?_, hc⟩
    intro hfst
    apply hij
    have hi' : i < (L.map Prod.fst).length := by rw [List.length_map]; exact hi
    have hj' : j < (L.map Prod.fst).length := by rw [List.length_map]; exact hj
    have : (L.map Prod.fst)[i] = (L.map Prod.fst)[j] := by
      rw [List.getElem_map, List.getElem_map]
      exact hfst
    exact (hnd.getElem_inj_iff).mp this
  · rintro ⟨x, hx, y, hy, hxy, hc⟩
    obtain ⟨i, hi, rfl⟩ := List.mem_iff_getElem.mp hx
    obtain ⟨j, hj, rfl⟩ := List.mem_iff_getElem.mp hy
    refine ⟨i, hi, ?_⟩
    rw [List.exists_mem_enum]
    refine ⟨j, hj, ?_, hc⟩
    rintro rfl
    exact hxy rfl

/-- The proximity condition of the C6 claim: two distinct matched query
words occur within the proximity distance of each other. -/
def ProximityPairExists (qws : List (List Char)) (tl : List Char) : Prop :=
  ∃ w1 ∈ qws, ∃ w2 ∈ qws, w1 ≠ w2 ∧
    ∃ p1 ∈ occurrences w1 tl, ∃ p2 ∈ occurrences w2 tl,
      ((p1 : Int) - (p2 : Int)).natAbs ≤ proximity_distance

instance (qws : List (List Char)) (tl : List Char) :
    Decidable (ProximityPairExists qws tl) := by
  unfold ProximityPairExists
  infer_instance

/-- For a duplicate-free query with at least two matched words, the
proximity bonus is 0.3 exactly when two distinct matched words occur within
the proximity distance. -/
theorem prox_bonus_eq (qws : List (List Char)) (tl : List Char)
    (hnd : qws.Nodup)
    (hm : 2 ≤ (qws.filter (fun w => containsSub w tl)).length) :
    calculate_proximity_bonus qws tl =
      if ProximityPairExists qws tl then 3/10 else 0 := by
  have hwf_len : (wordsFound qws tl).length =
      (qws.filter (fun w => containsSub w tl)).length := by
    rw [wordsFound_eq, List.length_map, matched_filter_eq]
  have hiff : anyClosePairIdx proximity_distance (wordsFound qws tl) = true ↔
      ProximityPairExists qws tl := by
    rw [anyClosePairIdx_iff _ _ (wordsFound_keys_nodup qws tl hnd)]
    constructor
    · rintro ⟨x, hx, y, hy, hxy, hc⟩
      rw [mem_wordsFound_iff] at hx hy
      obtain ⟨w1, hw1, -, rfl⟩ := hx
      obtain ⟨w2, hw2, -, rfl⟩ := hy
      rw [closePair_iff] at hc
      obtain ⟨p1, hp1, p2, hp2, hd⟩ := hc
      exact ⟨w1, hw1, w2, hw2, hxy, p1, hp1, p2, hp2, hd⟩
    · rintro ⟨w1, hw1, w2, hw2, hne, p1, hp1, p2, hp2, hd⟩
      refine ⟨(w1, occurrences w1 tl),
        (mem_wordsFound_iff qws tl _).mpr
          ⟨w1, hw1, List.ne_nil_of_mem hp1, rfl⟩,
        (w2, occurrences w2 tl),
        (mem_wordsFound_iff qws tl _).mpr
          ⟨w2, hw2, List.ne_nil_of_mem hp2, rfl⟩, hne, ?_⟩
      rw [closePair_iff]
      exact ⟨p1, hp1, p2, hp2, hd⟩
  rw [calculate_proximity_bonus]
  simp only [hwf_len ▸ hm, if_true, if_pos (hwf_len ▸ hm)]
  by_cases hp : ProximityPairExists qws tl
  · rw [if_pos (hiff.mpr hp), if_pos hp]
  · rw [if_neg (fun hc => hp (hiff.mp hc)), if_neg hp]

/-- C6 counterexample: for the query "alpha alpha" against the text
"alpha", the query has more than one word, the exact phrase does not occur,
only one distinct query word is matched — yet the code adds the 0.3
proximity bonus (pairing the duplicated token with itself at distance 0),
so the keyword score is 1.15 rather than the bonus-free 2/2 = 1 the claim
mandates. -/
theorem C6_counterexample :
    1 < (splitWords (lowerL "alpha alpha".toList)).length ∧
    containsSub (lowerL "alpha alpha".toList) (lowerL "alpha".toList) = false ∧
    ((splitWords (lowerL "alpha alpha".toList)).filter
      (fun w => containsSub w (lowerL "alpha".toList))).dedup.length = 1 ∧
    calculate_keyword_score "alpha alpha".toList "alpha".toList = 23/20 ∧
    (23 : ℚ)/20 ≠
      ((((splitWords (lowerL "alpha alpha".toList)).filter
        (fun w => containsSub w (lowerL "alpha".toList))).length : ℚ)) /
        ((splitWords (lowerL "alpha alpha".toList)).length : ℚ) := by
  refine ⟨by decide, by decide, by decide, ?_, ?_⟩
  · rw [calculate_keyword_score]
    simp +decide only
      [show splitWords (lowerL "alpha alpha".toList) =
        ["alpha".toList, "alpha".toList] from by decide,
      show lowerL "alpha".toList = "alpha".toList from by decide,
      show containsSub (lowerL "alpha alpha".toList) "alpha".toList = false
        from by decide,
      show (List.filter (fun w => containsSub w "alpha".toList)
        ["alpha".toList, "alpha".toList]).length = 2 from by decide,
      calculate_proximity_bonus,
      show (wordsFound ["alpha".toList, "alpha".toList] "alpha".toList).length = 2
        from by decide,
      show anyClosePairIdx proximity_distance
        (wordsFound ["alpha".toList, "alpha".toList] "alpha".toList) = true
        from by decide]
    norm_num
  · rw [show ((splitWords (lowerL "alpha alpha".toList)).filter
        (fun w => containsSub w (lowerL "alpha".toList))).length = 2 from by decide,
      show (splitWords (lowerL "alpha alpha".toList)).length = 2 from by decide]
    norm_num

/-- C6 (amended): for every query with more than one word whose word list
is duplicate-free, and every candidate text: the 0.5 bonus is added exactly
when the lowercase query phrase occurs in the text; otherwise, when at
least two query words matched, a proximity bonus of exactly 0.3 is added
exactly when some pair of distinct matched query words occurs within 50
characters of each other, with no bonus below two matches; and the
proximity bonus is at most one application (0 or 0.3, never 0.6). With
duplicated query words the code instead counts matched tokens and may pair
a duplicated token with itself, as the counterexample shows. -/
theorem C6_proximity_bonus_characterization (q t : List Char)
    (hnd : (splitWords (lowerL q)).Nodup)
    (hlen : 1 < (splitWords (lowerL q)).length) :
    (containsSub (lowerL q) (lowerL t) = true →
      calculate_keyword_score q t =
        ((((splitWords (lowerL q)).filter
          (fun w => containsSub w (lowerL t))).length : ℚ) + 1/2) /
          ((splitWords (lowerL q)).length : ℚ)) ∧
    (containsSub (lowerL q) (lowerL t) = false →
      calculate_keyword_score q t =
        ((((splitWords (lowerL q)).filter
          (fun w => containsSub w (lowerL t))).length : ℚ) +
          (if 2 ≤ ((splitWords (lowerL q)).filter
              (fun w => containsSub w (lowerL t))).length ∧
              ProximityPairExists (splitWords (lowerL q)) (lowerL t)
           then (3 : ℚ)/10 else 0)) /
          ((splitWords (lowerL q)).length : ℚ)) ∧
    (calculate_proximity_bonus (splitWords (lowerL q)) (lowerL t) = 0 ∨
      calculate_proximity_bonus (splitWords (lowerL q)) (lowerL t) = 3/10) := by
  have hq : splitWords (lowerL q) ≠ [] := by
    intro h
    rw [h] at hlen
    simp at hlen
  refine ⟨?_, ?_, prox_bonus_cases _ _⟩
  · intro hphrase
    simp only [calculate_keyword_score, if_neg hq, if_pos hlen, if_pos hphrase]
  · intro hphrase
    have hnp : ¬ (containsSub (lowerL q) (lowerL t) = true) := by
      rw [hphrase]
      exact Bool.false_ne_true
    simp only [calculate_keyword_score, if_neg hq, if_pos hlen, if_neg hnp]
    by_cases hm : 2 ≤ ((splitWords (lowerL q)).filter
        (fun w => containsSub w (lowerL t))).length
    · rw [if_pos hm, prox_bonus_eq _ _ hnd hm]
      by_cases hp : ProximityPairExists (splitWords (lowerL q)) (lowerL t)
      · rw [if_pos hp, if_pos ⟨hm, hp⟩]
      · rw [if_neg hp, if_neg (fun hand => hp hand.2)]
    · rw [if_neg hm, if_neg (fun hand => hm hand.1), add_zero]

/-- Witness for C6's characterization at a concrete input where the
proximity bonus applies. -/
theorem C6_proximity_bonus_characterization_witness :
    calculate_keyword_score "alpha beta".toList "alpha xx beta".toList =
      ((((splitWords (lowerL "alpha beta".toList)).filter
        (fun w => containsSub w (lowerL "alpha xx beta".toList))).length : ℚ) +
        (if 2 ≤ ((splitWords (lowerL "alpha beta".toList)).filter
            (fun w => containsSub w (lowerL "alpha xx beta".toList))).length ∧
            ProximityPairExists (splitWords (lowerL "alpha beta".toList))
              (lowerL "alpha xx beta".toList)
         then (3 : ℚ)/10 else 0)) /
        ((splitWords (lowerL "alpha beta".toList)).length : ℚ) :=
  (C6_proximity_bonus_characterization "alpha beta".toList
    "alpha xx beta".toList (by decide) (by decide)).2.1 (by decide)

end PdfVectorSearch
